import Mathlib

/-!
# backend/update-emails.js

A shallow embedding of the one-shot migration script `updateEmails`:
a MySQL connection is opened, three `UPDATE users SET email = .. WHERE email = ..`
statements are executed in order, the `users` table is selected and printed,
and the connection is closed.  Everything sits in one `try` block whose
`catch` handler prints the error message and calls `process.exit(1)`.

Modelling conventions

* The `users` table is a list of rows `(id, name, email, is_admin)`; SQL
  equality on `email` is equality of strings.
* The database driver (`mysql2/promise`) and the server are outside the
  script.  Every driver call either resolves or rejects with an error
  carrying a message; which calls reject is a parameter `db : Faults`.
  A rejected statement leaves the table as it was.  The promise returned by
  `connection.end()` has no reject path in `mysql2/promise`: statements about
  the sequence of calls of a run are made for `db .connEnd = none`.
* The `World` records everything observable: the table, the driver calls
  issued, `affectedRows` of each resolved `execute`, the lines written to
  standard output, the tables printed, the lines written to standard error
  and the exit status of the process.
-/

namespace UpdateEmails

/-- A row of `users`, restricted to the four columns the script reads. -/
structure User where
  id : Int
  name : String
  email : String
  is_admin : Bool
deriving DecidableEq

/-- The two shapes of SQL text that occur in the script.
`updateEmail n o` is `UPDATE users SET email = n WHERE email = o`;
`selectUsers` is `SELECT id, name, email, is_admin FROM users`. -/
inductive Stmt where
  | updateEmail (newEmail oldEmail : String)
  | selectUsers
deriving DecidableEq

/-- The driver calls made by the script. -/
inductive Call where
  | createConnection
  | execute (sql : Stmt)
  | query (sql : Stmt)
  | connEnd
deriving DecidableEq

/-- Which driver calls reject, and with which `error.message`. -/
abbrev Faults := Call → Option String

/-- Everything observable about one process. -/
structure World where
  users : List User
  issued : List Call
  affected : List Nat
  stdout : List String
  tables : List (List User)
  stderr : List String
  exitCode : Option Nat
deriving DecidableEq

/-- A freshly started process in front of a database holding `users`. -/
def boot (users : List User) : World :=
  { users := users, issued := [], affected := [], stdout := [], tables := [],
    stderr := [], exitCode := none }

/-- The effect of one row of `UPDATE users SET email = n WHERE email = o`. -/
def setEmail (newEmail oldEmail : String) (u : User) : User :=
  if u.email = oldEmail then { u with email := newEmail } else u

/-- The table after a statement. -/
def Stmt.apply : Stmt → List User → List User
  | .updateEmail newEmail oldEmail, t => t.map (setEmail newEmail oldEmail)
  | .selectUsers, t => t

/-- The `affectedRows` of a statement: the rows its `WHERE` clause matches. -/
def Stmt.affectedRows : Stmt → List User → Nat
  | .updateEmail _ oldEmail, t => t.countP (fun u => u.email = oldEmail)
  | .selectUsers, _ => 0

/-- The rows a statement returns. -/
def Stmt.rows : Stmt → List User → List User
  | .updateEmail _ _, _ => []
  | .selectUsers, t => t

/-- The call `mysql.createConnection(..)` with the fixed configuration of lines 5-11. -/
def createConnection (db : Faults) (w : World) : World × Except String Unit :=
  let w1 := { w with issued := w.issued ++ [Call.createConnection] }
  match db Call.createConnection with
  | some msg => (w1, .error msg)
  | none => (w1, .ok ())

/-- The call `connection.execute(sql)`. -/
def execute (db : Faults) (sql : Stmt) (w : World) : World × Except String Unit :=
  let w1 := { w with issued := w.issued ++ [Call.execute sql] }
  match db (Call.execute sql) with
  | some msg => (w1, .error msg)
  | none =>
    ({ w1 with users := sql.apply w1.users,
               affected := w1.affected ++ [sql.affectedRows w1.users] }, .ok ())

/-- The call `connection.query(sql)`. -/
def query (db : Faults) (sql : Stmt) (w : World) : World × Except String (List User) :=
  let w1 := { w with issued := w.issued ++ [Call.query sql] }
  match db (Call.query sql) with
  | some msg => (w1, .error msg)
  | none => ({ w1 with users := sql.apply w1.users }, .ok (sql.rows w1.users))

/-- The call `connection.end()`.  The fault parameter is consulted here as for every
other driver call; the promise `mysql2/promise` returns from `end()` only ever resolves,
so the runs of the script are those with `db .connEnd = none`. -/
def connEnd (db : Faults) (w : World) : World × Except String Unit :=
  let w1 := { w with issued := w.issued ++ [Call.connEnd] }
  match db Call.connEnd with
  | some msg => (w1, .error msg)
  | none => (w1, .ok ())

/-- The call `console.log(line)`. -/
def consoleLog (line : String) (w : World) : World :=
  { w with stdout := w.stdout ++ [line] }

/-- The call `console.table(rows)`. -/
def consoleTable (rows : List User) (w : World) : World :=
  { w with tables := w.tables ++ [rows] }

/-- The call `console.error(a, b)` writes one line, the arguments separated by a blank. -/
def consoleError (a b : String) (w : World) : World :=
  { w with stderr := w.stderr ++ [a ++ " " ++ b] }

/-- The call `process.exit(code)`. -/
def processExit (code : Nat) (w : World) : World :=
  { w with exitCode := some code }

/-- The expression `await p` inside the `try` block: a rejection leaves the block,
a resolution hands the value to the rest of the block. -/
def await {α β : Type} (p : World × Except String α)
    (rest : α → World → World × Except String β) : World × Except String β :=
  match p with
  | (w, .error e) => (w, .error e)
  | (w, .ok a) => rest a w

def adminOld : String := "admin@cliniquejuriste.com"
def adminNew : String := "admin@devopsacademy.com"
def samiOld : String := "sami@cliniquejuriste.com"
def samiNew : String := "sami@devopsacademy.com"
def ramiOld : String := "rami@cliniquejuriste.com"
def ramiNew : String := "rami@devopsacademy.com"

/-- Lines 16-18. -/
def updateAdmin : Stmt := .updateEmail adminNew adminOld
/-- Lines 22-24. -/
def updateSami : Stmt := .updateEmail samiNew samiOld
/-- Lines 28-30. -/
def updateRami : Stmt := .updateEmail ramiNew ramiOld

/-- The body of the `try` block, lines 5-40. -/
def tryBlock (db : Faults) (w : World) : World × Except String Unit :=
  await (createConnection db w) fun _ w =>
  let w := consoleLog "✅ Connected to database" w
  await (execute db updateAdmin w) fun _ w =>
  let w := consoleLog "✅ Updated admin email" w
  await (execute db updateSami w) fun _ w =>
  let w := consoleLog "✅ Updated sami email" w
  await (execute db updateRami w) fun _ w =>
  let w := consoleLog "✅ Updated rami email" w
  await (query db .selectUsers w) fun users w =>
  let w := consoleLog "\n📋 Current users in database:" w
  let w := consoleTable users w
  await (connEnd db w) fun _ w =>
  let w := consoleLog "\n✅ All email updates completed!" w
  let w := consoleLog "🔐 You can now login with: admin@devopsacademy.com" w
  (w, .ok ())

/-- The function `updateEmails`, lines 3-45, followed to the end of the process:
when the `try` block completes nothing is left to run and node exits with
status 0; the `catch` handler prints the message and exits with status 1. -/
def updateEmails (db : Faults) (w : World) : World :=
  match tryBlock db w with
  | (w1, .ok ()) => processExit 0 w1
  | (w1, .error message) => processExit 1 (consoleError "❌ Error:" message w1)

/-- One run of the script against a database holding `users`. -/
def run (db : Faults) (users : List User) : World :=
  updateEmails db (boot users)

/-- The three rewrite rules `(old, new)` in the order of the source. -/
def rules : List (String × String) :=
  [(adminOld, adminNew), (samiOld, samiNew), (ramiOld, ramiNew)]

/-- The six driver calls of the script in the order of the source. -/
def script : List Call :=
  [.createConnection, .execute updateAdmin, .execute updateSami, .execute updateRami,
   .query .selectUsers, .connEnd]

/-- A database on which every call resolves. -/
def healthy : Faults := fun _ => none

/-- A database on which exactly the call `c` rejects, with message `msg`. -/
def failingAt (c : Call) (msg : String) : Faults :=
  fun x => if x = c then some msg else none

/-- The table of the first concrete scenario of the specification. -/
def scenario : List User :=
  [⟨1, "Admin", adminOld, true⟩, ⟨2, "Sami", samiOld, false⟩, ⟨3, "Rami", ramiOld, false⟩]

/-- The table the first concrete scenario ends with. -/
def scenarioAfter : List User :=
  [⟨1, "Admin", adminNew, true⟩, ⟨2, "Sami", samiNew, false⟩, ⟨3, "Rami", ramiNew, false⟩]

/-- The table after the first update. -/
def afterAdmin (users : List User) : List User := updateAdmin.apply users
/-- The table after the first two updates. -/
def afterSami (users : List User) : List User := updateSami.apply (afterAdmin users)
/-- The table after all three updates. -/
def afterRami (users : List User) : List User := updateRami.apply (afterSami users)

/-- The fixed three-entry rewrite of an email address. -/
def rewriteEmail (e : String) : String :=
  if e = adminOld then adminNew
  else if e = samiOld then samiNew
  else if e = ramiOld then ramiNew
  else e

/-- A row with its email mapped through `rewriteEmail`, the other columns kept. -/
def rewriteUser (u : User) : User :=
  { u with email := rewriteEmail u.email }

/-- The table after the `UPDATE` of one rule `(old, new)`. -/
def applyRule (r : String × String) (t : List User) : List User :=
  (Stmt.updateEmail r.2 r.1).apply t

/-- The table after the `UPDATE`s of a list of rules, applied from left to right. -/
def applyRules (p : List (String × String)) (t : List User) : List User :=
  p.foldl (fun acc r => applyRule r acc) t

/-- The three `UPDATE` statements in the order of the source. -/
def updates : List Stmt := [updateAdmin, updateSami, updateRami]

/-- The table of the second concrete scenario: no row carries an old address. -/
def untouched : List User :=
  [⟨7, "Lina", "lina@devopsacademy.com", false⟩, ⟨8, "Admin", adminNew, true⟩]

/-- A table in which two rows share an old address. -/
def duplicated : List User :=
  [⟨1, "Admin", adminOld, true⟩, ⟨4, "Shadow", adminOld, false⟩, ⟨2, "Sami", samiOld, false⟩,
   ⟨9, "Nour", "nour@example.org", false⟩]

/-! ## The seven paths through the script -/

theorem run_connect_fails (db : Faults) (users : List User) (msg : String)
    (h0 : db .createConnection = some msg) :
    run db users =
      { users := users, issued := [.createConnection], affected := [], stdout := [],
        tables := [], stderr := ["❌ Error:" ++ " " ++ msg], exitCode := some 1 } := by
  simp [run, updateEmails, tryBlock, await, createConnection, boot, consoleError,
    processExit, h0]

theorem run_admin_fails (db : Faults) (users : List User) (msg : String)
    (h0 : db .createConnection = none) (h1 : db (.execute updateAdmin) = some msg) :
    run db users =
      { users := users, issued := [.createConnection, .execute updateAdmin], affected := [],
        stdout := ["✅ Connected to database"],
        tables := [], stderr := ["❌ Error:" ++ " " ++ msg], exitCode := some 1 } := by
  simp [run, updateEmails, tryBlock, await, createConnection, execute, boot, consoleError,
    consoleLog, processExit, h0, h1]

theorem run_sami_fails (db : Faults) (users : List User) (msg : String)
    (h0 : db .createConnection = none) (h1 : db (.execute updateAdmin) = none)
    (h2 : db (.execute updateSami) = some msg) :
    run db users =
      { users := afterAdmin users,
        issued := [.createConnection, .execute updateAdmin, .execute updateSami],
        affected := [updateAdmin.affectedRows users],
        stdout := ["✅ Connected to database", "✅ Updated admin email"],
        tables := [], stderr := ["❌ Error:" ++ " " ++ msg], exitCode := some 1 } := by
  simp [run, updateEmails, tryBlock, await, createConnection, execute, boot, consoleError,
    consoleLog, processExit, afterAdmin, h0, h1, h2]

theorem run_rami_fails (db : Faults) (users : List User) (msg : String)
    (h0 : db .createConnection = none) (h1 : db (.execute updateAdmin) = none)
    (h2 : db (.execute updateSami) = none) (h3 : db (.execute updateRami) = some msg) :
    run db users =
      { users := afterSami users,
        issued := [.createConnection, .execute updateAdmin, .execute updateSami,
          .execute updateRami],
        affected := [updateAdmin.affectedRows users, updateSami.affectedRows (afterAdmin users)],
        stdout := ["✅ Connected to database", "✅ Updated admin email",
          "✅ Updated sami email"],
        tables := [], stderr := ["❌ Error:" ++ " " ++ msg], exitCode := some 1 } := by
  simp [run, updateEmails, tryBlock, await, createConnection, execute, boot, consoleError,
    consoleLog, processExit, afterAdmin, afterSami, h0, h1, h2, h3]

theorem run_select_fails (db : Faults) (users : List User) (msg : String)
    (h0 : db .createConnection = none) (h1 : db (.execute updateAdmin) = none)
    (h2 : db (.execute updateSami) = none) (h3 : db (.execute updateRami) = none)
    (h4 : db (.query .selectUsers) = some msg) :
    run db users =
      { users := afterRami users,
        issued := [.createConnection, .execute updateAdmin, .execute updateSami,
          .execute updateRami, .query .selectUsers],
        affected := [updateAdmin.affectedRows users, updateSami.affectedRows (afterAdmin users),
          updateRami.affectedRows (afterSami users)],
        stdout := ["✅ Connected to database", "✅ Updated admin email",
          "✅ Updated sami email", "✅ Updated rami email"],
        tables := [], stderr := ["❌ Error:" ++ " " ++ msg], exitCode := some 1 } := by
  simp [run, updateEmails, tryBlock, await, createConnection, execute, query, boot,
    consoleError, consoleLog, processExit, afterAdmin, afterSami, afterRami, h0, h1, h2, h3, h4]

theorem run_end_fails (db : Faults) (users : List User) (msg : String)
    (h0 : db .createConnection = none) (h1 : db (.execute updateAdmin) = none)
    (h2 : db (.execute updateSami) = none) (h3 : db (.execute updateRami) = none)
    (h4 : db (.query .selectUsers) = none) (h5 : db .connEnd = some msg) :
    run db users =
      { users := afterRami users,
        issued := script,
        affected := [updateAdmin.affectedRows users, updateSami.affectedRows (afterAdmin users),
          updateRami.affectedRows (afterSami users)],
        stdout := ["✅ Connected to database", "✅ Updated admin email",
          "✅ Updated sami email", "✅ Updated rami email", "\n📋 Current users in database:"],
        tables := [afterRami users], stderr := ["❌ Error:" ++ " " ++ msg],
        exitCode := some 1 } := by
  simp [run, updateEmails, tryBlock, await, createConnection, execute, query, connEnd, boot,
    consoleError, consoleLog, consoleTable, processExit, afterAdmin, afterSami, afterRami,
    script, Stmt.apply, Stmt.rows, h0, h1, h2, h3, h4, h5]

theorem run_succeeds (db : Faults) (users : List User)
    (h0 : db .createConnection = none) (h1 : db (.execute updateAdmin) = none)
    (h2 : db (.execute updateSami) = none) (h3 : db (.execute updateRami) = none)
    (h4 : db (.query .selectUsers) = none) (h5 : db .connEnd = none) :
    run db users =
      { users := afterRami users,
        issued := script,
        affected := [updateAdmin.affectedRows users, updateSami.affectedRows (afterAdmin users),
          updateRami.affectedRows (afterSami users)],
        stdout := ["✅ Connected to database", "✅ Updated admin email",
          "✅ Updated sami email", "✅ Updated rami email", "\n📋 Current users in database:",
          "\n✅ All email updates completed!",
          "🔐 You can now login with: admin@devopsacademy.com"],
        tables := [afterRami users], stderr := [], exitCode := some 0 } := by
  simp [run, updateEmails, tryBlock, await, createConnection, execute, query, connEnd, boot,
    consoleLog, consoleTable, processExit, afterAdmin, afterSami, afterRami,
    script, Stmt.apply, Stmt.rows, h0, h1, h2, h3, h4, h5]

/-- Every run takes exactly one of the seven paths: the first rejected call,
or none. -/
theorem run_paths (db : Faults) :
    (∃ m, db .createConnection = some m) ∨
    (db .createConnection = none ∧ ∃ m, db (.execute updateAdmin) = some m) ∨
    (db .createConnection = none ∧ db (.execute updateAdmin) = none ∧
      ∃ m, db (.execute updateSami) = some m) ∨
    (db .createConnection = none ∧ db (.execute updateAdmin) = none ∧
      db (.execute updateSami) = none ∧ ∃ m, db (.execute updateRami) = some m) ∨
    (db .createConnection = none ∧ db (.execute updateAdmin) = none ∧
      db (.execute updateSami) = none ∧ db (.execute updateRami) = none ∧
      ∃ m, db (.query .selectUsers) = some m) ∨
    (db .createConnection = none ∧ db (.execute updateAdmin) = none ∧
      db (.execute updateSami) = none ∧ db (.execute updateRami) = none ∧
      db (.query .selectUsers) = none ∧ ∃ m, db .connEnd = some m) ∨
    (db .createConnection = none ∧ db (.execute updateAdmin) = none ∧
      db (.execute updateSami) = none ∧ db (.execute updateRami) = none ∧
      db (.query .selectUsers) = none ∧ db .connEnd = none) := by
  rcases h0 : db .createConnection with _ | m0
  · rcases h1 : db (.execute updateAdmin) with _ | m1
    · rcases h2 : db (.execute updateSami) with _ | m2
      · rcases h3 : db (.execute updateRami) with _ | m3
        · rcases h4 : db (.query .selectUsers) with _ | m4
          · rcases h5 : db .connEnd with _ | m5
            · simp
            · simp
          · simp
        · simp
      · simp
    · simp
  · simp

/-! ## The table -/

theorem old_ne_facts :
    adminOld ≠ samiOld ∧ adminOld ≠ ramiOld ∧ samiOld ≠ ramiOld ∧
    adminNew ≠ adminOld ∧ adminNew ≠ samiOld ∧ adminNew ≠ ramiOld ∧
    samiNew ≠ adminOld ∧ samiNew ≠ samiOld ∧ samiNew ≠ ramiOld ∧
    ramiNew ≠ adminOld ∧ ramiNew ≠ samiOld ∧ ramiNew ≠ ramiOld := by decide

theorem rewriteEmail_of_not_old (e : String)
    (h1 : e ≠ adminOld) (h2 : e ≠ samiOld) (h3 : e ≠ ramiOld) : rewriteEmail e = e := by
  simp [rewriteEmail, h1, h2, h3]

theorem rewriteEmail_ne_old (e : String) :
    rewriteEmail e ≠ adminOld ∧ rewriteEmail e ≠ samiOld ∧ rewriteEmail e ≠ ramiOld := by
  obtain ⟨-, -, -, a1, a2, a3, s1, s2, s3, r1, r2, r3⟩ := old_ne_facts
  unfold rewriteEmail
  split_ifs with h1 h2 h3
  · exact ⟨a1, a2, a3⟩
  · exact ⟨s1, s2, s3⟩
  · exact ⟨r1, r2, r3⟩
  · exact ⟨h1, h2, h3⟩

theorem three_updates_row (u : User) :
    setEmail ramiNew ramiOld (setEmail samiNew samiOld (setEmail adminNew adminOld u))
      = rewriteUser u := by
  obtain ⟨o1, o2, o3, a1, a2, a3, s1, s2, s3, r1, r2, r3⟩ := old_ne_facts
  unfold setEmail rewriteUser rewriteEmail
  by_cases h1 : u.email = adminOld
  · simp [h1, a2, a3]
  · by_cases h2 : u.email = samiOld
    · simp [h2, s3, o1.symm]
    · by_cases h3 : u.email = ramiOld
      · simp [h3, o2.symm, o3.symm]
      · simp [h1, h2, h3]

theorem afterRami_eq_map (users : List User) : afterRami users = users.map rewriteUser := by
  simp only [afterRami, afterSami, afterAdmin, updateAdmin, updateSami, updateRami, Stmt.apply,
    List.map_map]
  apply List.map_congr_left
  intro u _
  exact three_updates_row u

theorem rewriteEmail_rules :
    rewriteEmail adminOld = adminNew ∧ rewriteEmail samiOld = samiNew ∧
    rewriteEmail ramiOld = ramiNew := by decide

theorem mem_rules_iff (r : String × String) :
    r ∈ rules ↔ r = (adminOld, adminNew) ∨ r = (samiOld, samiNew) ∨ r = (ramiOld, ramiNew) := by
  simp [rules]

theorem rewriteEmail_of_rule (r : String × String) (h : r ∈ rules) :
    rewriteEmail r.1 = r.2 := by
  obtain ⟨e1, e2, e3⟩ := rewriteEmail_rules
  rcases (mem_rules_iff r).1 h with rfl | rfl | rfl
  · exact e1
  · exact e2
  · exact e3

theorem rewriteEmail_ne_rule (e : String) (r : String × String) (h : r ∈ rules) :
    rewriteEmail e ≠ r.1 := by
  obtain ⟨n1, n2, n3⟩ := rewriteEmail_ne_old e
  rcases (mem_rules_iff r).1 h with rfl | rfl | rfl
  · exact n1
  · exact n2
  · exact n3

theorem rewriteEmail_of_no_rule (e : String) (h : ∀ r ∈ rules, e ≠ r.1) :
    rewriteEmail e = e :=
  rewriteEmail_of_not_old e (h (adminOld, adminNew) (by simp [rules]))
    (h (samiOld, samiNew) (by simp [rules])) (h (ramiOld, ramiNew) (by simp [rules]))

theorem rewriteUser_of_no_rule (u : User) (h : ∀ r ∈ rules, u.email ≠ r.1) :
    rewriteUser u = u := by
  cases u
  simp only [rewriteUser] at *
  rw [rewriteEmail_of_no_rule _ h]

theorem apply_of_no_match (n o : String) (t : List User) (h : ∀ u ∈ t, u.email ≠ o) :
    (Stmt.updateEmail n o).apply t = t := by
  simp only [Stmt.apply]
  conv_rhs => rw [← List.map_id t]
  apply List.map_congr_left
  intro u hu
  simp [setEmail, h u hu]

theorem affectedRows_of_no_match (n o : String) (t : List User) (h : ∀ u ∈ t, u.email ≠ o) :
    (Stmt.updateEmail n o).affectedRows t = 0 := by
  simp only [Stmt.affectedRows, List.countP_eq_zero]
  intro u hu
  simpa using h u hu

/-- On a table without any of the three old addresses the three updates match nothing
and change nothing. -/
theorem updates_of_no_old (t : List User) (h : ∀ u ∈ t, ∀ r ∈ rules, u.email ≠ r.1) :
    afterAdmin t = t ∧ afterSami t = t ∧ afterRami t = t ∧
    updateAdmin.affectedRows t = 0 ∧ updateSami.affectedRows (afterAdmin t) = 0 ∧
    updateRami.affectedRows (afterSami t) = 0 := by
  have ha : ∀ u ∈ t, u.email ≠ adminOld := fun u hu => h u hu (adminOld, adminNew) (by simp [rules])
  have hs : ∀ u ∈ t, u.email ≠ samiOld := fun u hu => h u hu (samiOld, samiNew) (by simp [rules])
  have hr : ∀ u ∈ t, u.email ≠ ramiOld := fun u hu => h u hu (ramiOld, ramiNew) (by simp [rules])
  have e1 : afterAdmin t = t := apply_of_no_match _ _ t ha
  have e2 : afterSami t = t := by
    unfold afterSami; rw [e1]; exact apply_of_no_match _ _ t hs
  have e3 : afterRami t = t := by
    unfold afterRami; rw [e2]; exact apply_of_no_match _ _ t hr
  refine ⟨e1, e2, e3, affectedRows_of_no_match _ _ t ha, ?_, ?_⟩
  · rw [e1]; exact affectedRows_of_no_match _ _ t hs
  · rw [e2]; exact affectedRows_of_no_match _ _ t hr

theorem no_old_after_rewrite (t : List User) :
    ∀ u ∈ t.map rewriteUser, ∀ r ∈ rules, u.email ≠ r.1 := by
  intro u hu r hr
  obtain ⟨v, -, rfl⟩ := List.mem_map.1 hu
  exact rewriteEmail_ne_rule v.email r hr

/-! ## Exit status -/

theorem exit_zero_iff (db : Faults) (users : List User) :
    (run db users).exitCode = some 0 ↔ ∀ c ∈ script, db c = none := by
  rcases run_paths db with ⟨m, h0⟩ | ⟨h0, m, h1⟩ | ⟨h0, h1, m, h2⟩ | ⟨h0, h1, h2, m, h3⟩ |
    ⟨h0, h1, h2, h3, m, h4⟩ | ⟨h0, h1, h2, h3, h4, m, h5⟩ | ⟨h0, h1, h2, h3, h4, h5⟩
  · simp [run_connect_fails db users m h0, script, h0]
  · simp [run_admin_fails db users m h0 h1, script, h0, h1]
  · simp [run_sami_fails db users m h0 h1 h2, script, h0, h1, h2]
  · simp [run_rami_fails db users m h0 h1 h2 h3, script, h0, h1, h2, h3]
  · simp [run_select_fails db users m h0 h1 h2 h3 h4, script, h0, h1, h2, h3, h4]
  · simp [run_end_fails db users m h0 h1 h2 h3 h4 h5, script, h0, h1, h2, h3, h4, h5]
  · simp [run_succeeds db users h0 h1 h2 h3 h4 h5, script, h0, h1, h2, h3, h4, h5]

/-- What a run with exit status 0 leaves behind. -/
theorem run_of_exit_zero (db : Faults) (users : List User)
    (hok : (run db users).exitCode = some 0) :
    (run db users).users = users.map rewriteUser ∧
    (run db users).tables = [users.map rewriteUser] ∧
    (run db users).issued = script ∧
    (run db users).stderr = [] ∧
    (run db users).affected =
      [updateAdmin.affectedRows users, updateSami.affectedRows (afterAdmin users),
        updateRami.affectedRows (afterSami users)] := by
  have h := (exit_zero_iff db users).1 hok
  simp only [script, List.forall_mem_cons] at h
  obtain ⟨h0, h1, h2, h3, h4, h5, -⟩ := h
  rw [run_succeeds db users h0 h1 h2 h3 h4 h5, afterRami_eq_map]
  simp

/-! ## Order of the rules -/

theorem applyRules_eq_map (p : List (String × String)) (t : List User) :
    applyRules p t = t.map (fun u => p.foldl (fun acc r => setEmail r.2 r.1 acc) u) := by
  induction p generalizing t with
  | nil => simp [applyRules]
  | cons r p ih =>
    have h : applyRules (r :: p) t = applyRules p (applyRule r t) := rfl
    rw [h, ih]
    simp [applyRule, Stmt.apply, List.map_map, Function.comp_def]

theorem foldl_setEmail_of_no_match (p : List (String × String)) (u : User)
    (h : ∀ r ∈ p, u.email ≠ r.1) :
    p.foldl (fun acc r => setEmail r.2 r.1 acc) u = u := by
  induction p with
  | nil => rfl
  | cons r p ih =>
    have hr : u.email ≠ r.1 := h r (List.mem_cons_self _ _)
    have e : setEmail r.2 r.1 u = u := by simp [setEmail, hr]
    rw [List.foldl_cons, e]
    exact ih (fun x hx => h x (List.mem_cons_of_mem _ hx))

theorem foldl_setEmail_of_match (p : List (String × String)) (u : User) (r : String × String)
    (hnd : (p.map Prod.fst).Nodup) (hcross : ∀ a ∈ p, ∀ b ∈ p, a.2 ≠ b.1)
    (hr : r ∈ p) (hu : u.email = r.1) :
    p.foldl (fun acc x => setEmail x.2 x.1 acc) u = { u with email := r.2 } := by
  induction p with
  | nil => cases hr
  | cons a p ih =>
    rw [List.map_cons, List.nodup_cons] at hnd
    rw [List.foldl_cons]
    rcases List.mem_cons.1 hr with rfl | hrp
    · have e : setEmail r.2 r.1 u = { u with email := r.2 } := by simp [setEmail, hu]
      rw [e]
      apply foldl_setEmail_of_no_match
      intro x hx
      exact hcross r (List.mem_cons_self _ _) x (List.mem_cons_of_mem _ hx)
    · have hne : u.email ≠ a.1 := by
        intro h
        apply hnd.1
        rw [← h, hu]
        exact List.mem_map_of_mem _ hrp
      have e : setEmail a.2 a.1 u = u := by simp [setEmail, hne]
      rw [e]
      exact ih hnd.2
        (fun x hx y hy => hcross x (List.mem_cons_of_mem _ hx) y (List.mem_cons_of_mem _ hy)) hrp

theorem rules_olds_nodup : (rules.map Prod.fst).Nodup := by decide

theorem rules_cross : ∀ a ∈ rules, ∀ b ∈ rules, a.2 ≠ b.1 := by decide

/-- In whatever order the three rules are applied, the table ends as the initial table
with every email mapped through `rewriteEmail`. -/
theorem applyRules_perm (p : List (String × String)) (hp : p.Perm rules) (t : List User) :
    applyRules p t = t.map rewriteUser := by
  rw [applyRules_eq_map]
  apply List.map_congr_left
  intro u _
  have hnd : (p.map Prod.fst).Nodup := (hp.map Prod.fst).nodup_iff.2 rules_olds_nodup
  have hcross : ∀ a ∈ p, ∀ b ∈ p, a.2 ≠ b.1 :=
    fun a ha b hb => rules_cross a (hp.mem_iff.1 ha) b (hp.mem_iff.1 hb)
  by_cases h : ∃ r ∈ rules, u.email = r.1
  · obtain ⟨r, hr, hu⟩ := h
    rw [foldl_setEmail_of_match p u r hnd hcross (hp.mem_iff.2 hr) hu]
    simp [rewriteUser, hu, rewriteEmail_of_rule r hr]
  · have h2 : ∀ r ∈ rules, u.email ≠ r.1 := fun r hr hu => h ⟨r, hr, hu⟩
    rw [foldl_setEmail_of_no_match p u (fun r hr => h2 r (hp.mem_iff.1 hr)),
      rewriteUser_of_no_rule u h2]

/-! ## The claims about the table -/

/-- C1: after a run that exits with status 0, for each of the three rules `(old, new)` and
each row of the initial table whose email is `old`, no row of the final table has email
`old` and some row of the final table has email `new` and the id, name and is_admin of
that initial row; the three-row scenario table ends as the stated three rows. -/
theorem C1_matching_row_rewritten (db : Faults) (users : List User)
    (hok : (run db users).exitCode = some 0) :
    (∀ rule ∈ rules, ∀ r ∈ users, r.email = rule.1 →
      (∀ u ∈ (run db users).users, u.email ≠ rule.1) ∧
      ∃ u ∈ (run db users).users,
        u.email = rule.2 ∧ u.id = r.id ∧ u.name = r.name ∧ u.is_admin = r.is_admin) ∧
    (users = scenario →
      (run db users).users = scenarioAfter ∧ (run db users).tables = [scenarioAfter]) := by
  obtain ⟨hu, ht, -⟩ := run_of_exit_zero db users hok
  rw [hu, ht]
  refine ⟨?_, ?_⟩
  · intro rule hrule r hr hre
    refine ⟨fun u hu2 => no_old_after_rewrite users u hu2 rule hrule, ?_⟩
    refine ⟨rewriteUser r, List.mem_map_of_mem _ hr, ?_, rfl, rfl, rfl⟩
    simp [rewriteUser, hre, rewriteEmail_of_rule rule hrule]
  · rintro rfl
    decide

theorem C1_matching_row_rewritten_witness :
    (run healthy scenario).exitCode = some 0 ∧
    (∀ rule ∈ rules, ∀ r ∈ scenario, r.email = rule.1 →
      (∀ u ∈ (run healthy scenario).users, u.email ≠ rule.1) ∧
      ∃ u ∈ (run healthy scenario).users,
        u.email = rule.2 ∧ u.id = r.id ∧ u.name = r.name ∧ u.is_admin = r.is_admin) ∧
    (scenario = scenario →
      (run healthy scenario).users = scenarioAfter ∧
      (run healthy scenario).tables = [scenarioAfter]) :=
  ⟨by decide, C1_matching_row_rewritten healthy scenario (by decide)⟩

/-- C5: after a run that exits with status 0 exactly one table has been displayed, the
rows returned by the final SELECT; its length is the number of rows of the initial table,
and the table after the updates has the same number of rows and the same ids (as a list,
hence as a multiset) as the initial table. -/
theorem C5_row_count_preserved (db : Faults) (users : List User)
    (hok : (run db users).exitCode = some 0) :
    ∃ shown, (run db users).tables = [shown] ∧
      shown = (run db users).users ∧
      shown.length = users.length ∧
      (run db users).users.length = users.length ∧
      (run db users).users.map (fun u => u.id) = users.map (fun u => u.id) ∧
      Multiset.ofList ((run db users).users.map (fun u => u.id))
        = Multiset.ofList (users.map (fun u => u.id)) := by
  obtain ⟨hu, ht, -⟩ := run_of_exit_zero db users hok
  have hid : (users.map rewriteUser).map (fun u => u.id) = users.map (fun u => u.id) := by
    rw [List.map_map]
    apply List.map_congr_left
    intro u _
    rfl
  refine ⟨users.map rewriteUser, ht, hu.symm, by simp, by simp [hu], by rw [hu, hid], ?_⟩
  rw [hu, hid]

theorem C5_row_count_preserved_witness :
    (run healthy scenario).exitCode = some 0 ∧
    ∃ shown, (run healthy scenario).tables = [shown] ∧
      shown = (run healthy scenario).users ∧
      shown.length = scenario.length ∧
      (run healthy scenario).users.length = scenario.length ∧
      (run healthy scenario).users.map (fun u => u.id) = scenario.map (fun u => u.id) ∧
      Multiset.ofList ((run healthy scenario).users.map (fun u => u.id))
        = Multiset.ofList (scenario.map (fun u => u.id)) :=
  ⟨by decide, C5_row_count_preserved healthy scenario (by decide)⟩

/-- C6: on a table in which no row has one of the three old emails, a run that exits with
status 0 reports zero affected rows for each of the three updates, displays exactly the
input table and leaves the table as it was. -/
theorem C6_no_old_email_is_noop (db : Faults) (users : List User)
    (hno : ∀ u ∈ users, ∀ rule ∈ rules, u.email ≠ rule.1)
    (hok : (run db users).exitCode = some 0) :
    (run db users).affected = [0, 0, 0] ∧
    (run db users).tables = [users] ∧
    (run db users).users = users := by
  obtain ⟨hu, ht, -, -, ha⟩ := run_of_exit_zero db users hok
  obtain ⟨-, -, e3, a1, a2, a3⟩ := updates_of_no_old users hno
  rw [afterRami_eq_map] at e3
  rw [hu, ht, ha, e3, a1, a2, a3]
  exact ⟨rfl, rfl, rfl⟩

theorem C6_no_old_email_is_noop_witness :
    (∀ u ∈ untouched, ∀ rule ∈ rules, u.email ≠ rule.1) ∧
    (run healthy untouched).exitCode = some 0 ∧
    (run healthy untouched).affected = [0, 0, 0] ∧
    (run healthy untouched).tables = [untouched] ∧
    (run healthy untouched).users = untouched :=
  ⟨by decide, by decide, C6_no_old_email_is_noop healthy untouched (by decide) (by decide)⟩

/-- The table a run leaves behind, whatever the path: some number of the three updates,
in the order of the source, has been applied. -/
theorem run_users_cases (db : Faults) (users : List User) :
    (run db users).users = users ∨ (run db users).users = afterAdmin users ∨
    (run db users).users = afterSami users ∨ (run db users).users = afterRami users := by
  rcases run_paths db with ⟨m, h0⟩ | ⟨h0, m, h1⟩ | ⟨h0, h1, m, h2⟩ | ⟨h0, h1, h2, m, h3⟩ |
    ⟨h0, h1, h2, h3, m, h4⟩ | ⟨h0, h1, h2, h3, h4, m, h5⟩ | ⟨h0, h1, h2, h3, h4, h5⟩
  · simp [run_connect_fails db users m h0]
  · simp [run_admin_fails db users m h0 h1]
  · simp [run_sami_fails db users m h0 h1 h2]
  · simp [run_rami_fails db users m h0 h1 h2 h3]
  · simp [run_select_fails db users m h0 h1 h2 h3 h4]
  · simp [run_end_fails db users m h0 h1 h2 h3 h4 h5]
  · simp [run_succeeds db users h0 h1 h2 h3 h4 h5]

/-- The affected-row counts a run reports, whatever the path: those of the updates that
resolved, in the order of the source. -/
theorem run_affected_cases (db : Faults) (users : List User) :
    (run db users).affected <+:
      [updateAdmin.affectedRows users, updateSami.affectedRows (afterAdmin users),
        updateRami.affectedRows (afterSami users)] := by
  rcases run_paths db with ⟨m, h0⟩ | ⟨h0, m, h1⟩ | ⟨h0, h1, m, h2⟩ | ⟨h0, h1, h2, m, h3⟩ |
    ⟨h0, h1, h2, h3, m, h4⟩ | ⟨h0, h1, h2, h3, h4, m, h5⟩ | ⟨h0, h1, h2, h3, h4, h5⟩
  · simp [run_connect_fails db users m h0]
  · simp [run_admin_fails db users m h0 h1]
  · rw [run_sami_fails db users m h0 h1 h2]; exact ⟨_, rfl⟩
  · rw [run_rami_fails db users m h0 h1 h2 h3]; exact ⟨_, rfl⟩
  · rw [run_select_fails db users m h0 h1 h2 h3 h4]
  · rw [run_end_fails db users m h0 h1 h2 h3 h4 h5]
  · rw [run_succeeds db users h0 h1 h2 h3 h4 h5]

/-- C2: after a run that exits with status 0 no row has any of the three old emails; a
second run against the resulting table, on the same database, reports zero affected rows
for each of the three updates, exits with status 0 without writing an error, and leaves
the table as the first run left it.  Whatever happens to the driver calls of a second run,
it never changes the table and never reports an affected row. -/
theorem C2_second_run_is_noop (db db2 : Faults) (users : List User)
    (hok : (run db users).exitCode = some 0) :
    (∀ u ∈ (run db users).users, ∀ rule ∈ rules, u.email ≠ rule.1) ∧
    (run db (run db users).users).affected = [0, 0, 0] ∧
    (run db (run db users).users).exitCode = some 0 ∧
    (run db (run db users).users).stderr = [] ∧
    (run db (run db users).users).users = (run db users).users ∧
    (run db2 (run db users).users).users = (run db users).users ∧
    (∀ n ∈ (run db2 (run db users).users).affected, n = 0) := by
  obtain ⟨hu, -⟩ := run_of_exit_zero db users hok
  have hno : ∀ u ∈ users.map rewriteUser, ∀ rule ∈ rules, u.email ≠ rule.1 :=
    no_old_after_rewrite users
  have hok2 : (run db (users.map rewriteUser)).exitCode = some 0 :=
    (exit_zero_iff db _).2 ((exit_zero_iff db users).1 hok)
  obtain ⟨hu2, -, -, he2, ha2⟩ := run_of_exit_zero db _ hok2
  obtain ⟨e1, e2, e3, a1, a2, a3⟩ := updates_of_no_old _ hno
  rw [hu]
  refine ⟨hno, ?_, hok2, he2, ?_, ?_, ?_⟩
  · rw [ha2, a1, a2, a3]
  · rw [hu2, ← afterRami_eq_map (users.map rewriteUser), e3]
  · rcases run_users_cases db2 (users.map rewriteUser) with h | h | h | h
    · exact h
    · rw [h, e1]
    · rw [h, e2]
    · rw [h, e3]
  · intro n hn
    have hpre := run_affected_cases db2 (users.map rewriteUser)
    rw [a1, a2, a3] at hpre
    have hmem := hpre.subset hn
    simpa using hmem

theorem C2_second_run_is_noop_witness :
    (run healthy scenario).exitCode = some 0 ∧
    (∀ u ∈ (run healthy scenario).users, ∀ rule ∈ rules, u.email ≠ rule.1) ∧
    (run healthy (run healthy scenario).users).affected = [0, 0, 0] ∧
    (run healthy (run healthy scenario).users).exitCode = some 0 ∧
    (run healthy (run healthy scenario).users).stderr = [] ∧
    (run healthy (run healthy scenario).users).users = (run healthy scenario).users ∧
    (run (failingAt (.execute updateSami) "ER_LOCK_WAIT_TIMEOUT")
      (run healthy scenario).users).users = (run healthy scenario).users ∧
    (∀ n ∈ (run (failingAt (.execute updateSami) "ER_LOCK_WAIT_TIMEOUT")
      (run healthy scenario).users).affected, n = 0) :=
  ⟨by decide, C2_second_run_is_noop healthy
    (failingAt (.execute updateSami) "ER_LOCK_WAIT_TIMEOUT") scenario (by decide)⟩

/-- C10: after a run that exits with status 0 the final table is the initial table with
the email of every row mapped through the fixed three-entry rewrite: row by row, id, name
and is_admin are unchanged, a row whose initial email is the old address of a rule has the
new address of that rule (every such row, emails not assumed unique), and a row whose
initial email is none of the three old addresses keeps its email.  Applying the three
updates in any other order yields the same table. -/
theorem C10_every_matching_row_rewritten (db : Faults) (users : List User)
    (hok : (run db users).exitCode = some 0) :
    (run db users).users = users.map rewriteUser ∧
    List.Forall₂ (fun r u =>
        u.id = r.id ∧ u.name = r.name ∧ u.is_admin = r.is_admin ∧
        (∀ rule ∈ rules, r.email = rule.1 → u.email = rule.2) ∧
        ((∀ rule ∈ rules, r.email ≠ rule.1) → u.email = r.email))
      users (run db users).users ∧
    (∀ p : List (String × String), p.Perm rules → applyRules p users = (run db users).users) := by
  obtain ⟨hu, -⟩ := run_of_exit_zero db users hok
  rw [hu]
  refine ⟨rfl, ?_, fun p hp => applyRules_perm p hp users⟩
  rw [List.forall₂_map_right_iff, List.forall₂_same]
  intro r _
  refine ⟨rfl, rfl, rfl, ?_, ?_⟩
  · intro rule hrule he
    simp [rewriteUser, he, rewriteEmail_of_rule rule hrule]
  · intro h
    simp [rewriteUser, rewriteEmail_of_no_rule r.email h]

theorem C10_every_matching_row_rewritten_witness :
    (run healthy duplicated).exitCode = some 0 ∧
    (run healthy duplicated).users = duplicated.map rewriteUser ∧
    List.Forall₂ (fun r u =>
        u.id = r.id ∧ u.name = r.name ∧ u.is_admin = r.is_admin ∧
        (∀ rule ∈ rules, r.email = rule.1 → u.email = rule.2) ∧
        ((∀ rule ∈ rules, r.email ≠ rule.1) → u.email = r.email))
      duplicated (run healthy duplicated).users ∧
    (∀ p : List (String × String), p.Perm rules →
      applyRules p duplicated = (run healthy duplicated).users) :=
  ⟨by decide, C10_every_matching_row_rewritten healthy duplicated (by decide)⟩

/-! ## The claims about control flow -/

theorem error_line (msg : String) : "❌ Error:" ++ " " ++ msg = "❌ Error: " ++ msg := by
  have h : "❌ Error:" ++ " " = "❌ Error: " := by decide
  rw [h]

theorem exit_one_iff (db : Faults) (users : List User) :
    (run db users).exitCode = some 1 ↔ ∃ c ∈ script, db c ≠ none := by
  rcases run_paths db with ⟨m, h0⟩ | ⟨h0, m, h1⟩ | ⟨h0, h1, m, h2⟩ | ⟨h0, h1, h2, m, h3⟩ |
    ⟨h0, h1, h2, h3, m, h4⟩ | ⟨h0, h1, h2, h3, h4, m, h5⟩ | ⟨h0, h1, h2, h3, h4, h5⟩
  · simp [run_connect_fails db users m h0, script, h0]
  · simp [run_admin_fails db users m h0 h1, script, h0, h1]
  · simp [run_sami_fails db users m h0 h1 h2, script, h0, h1, h2]
  · simp [run_rami_fails db users m h0 h1 h2 h3, script, h0, h1, h2, h3]
  · simp [run_select_fails db users m h0 h1 h2 h3 h4, script, h0, h1, h2, h3, h4]
  · simp [run_end_fails db users m h0 h1 h2 h3 h4 h5, script, h0, h1, h2, h3, h4, h5]
  · simp [run_succeeds db users h0 h1 h2 h3 h4 h5, script, h0, h1, h2, h3, h4, h5]

/-- C3: the process exits with status 1 exactly when some driver call of the script
rejects, and with status 0 (nothing written to standard error) when all six resolve.
When the call at position `i` of the script is the first to reject, with message `msg`,
the calls issued are the first `i + 1` calls of the script, none of the later calls is
issued, standard error holds exactly one line, which ends with `msg`, and the exit
status is 1. -/
theorem C3_exit_status_and_diagnostic (db : Faults) (users : List User) :
    ((run db users).exitCode = some 1 ↔ ∃ c ∈ script, db c ≠ none) ∧
    ((∀ c ∈ script, db c = none) →
      (run db users).exitCode = some 0 ∧ (run db users).stderr = []) ∧
    (∀ (i : Nat) (c : Call) (msg : String), script[i]? = some c →
      (∀ x ∈ script.take i, db x = none) → db c = some msg →
      (run db users).issued = script.take (i + 1) ∧
      (∀ x ∈ script.drop (i + 1), x ∉ (run db users).issued) ∧
      (run db users).stderr = ["❌ Error: " ++ msg] ∧
      (run db users).exitCode = some 1) := by
  refine ⟨exit_one_iff db users, ?_, ?_⟩
  · intro h
    have hok := (exit_zero_iff db users).2 h
    exact ⟨hok, (run_of_exit_zero db users hok).2.2.2.1⟩
  · intro i c msg hi hpre hc
    rcases i with _ | _ | _ | _ | _ | _ | i
    · simp [script] at hi hpre
      subst hi
      rw [run_connect_fails db users msg hc, error_line]
      refine ⟨?_, ?_, rfl, rfl⟩ <;> dsimp only <;> decide
    · simp [script] at hi hpre
      subst hi
      rw [run_admin_fails db users msg hpre hc, error_line]
      refine ⟨?_, ?_, rfl, rfl⟩ <;> dsimp only <;> decide
    · simp [script] at hi hpre
      subst hi
      rw [run_sami_fails db users msg hpre.1 hpre.2 hc, error_line]
      refine ⟨?_, ?_, rfl, rfl⟩ <;> dsimp only <;> decide
    · simp [script] at hi hpre
      subst hi
      rw [run_rami_fails db users msg hpre.1 hpre.2.1 hpre.2.2 hc, error_line]
      refine ⟨?_, ?_, rfl, rfl⟩ <;> dsimp only <;> decide
    · simp [script] at hi hpre
      subst hi
      rw [run_select_fails db users msg hpre.1 hpre.2.1 hpre.2.2.1 hpre.2.2.2 hc, error_line]
      refine ⟨?_, ?_, rfl, rfl⟩ <;> dsimp only <;> decide
    · simp [script] at hi hpre
      subst hi
      rw [run_end_fails db users msg hpre.1 hpre.2.1 hpre.2.2.1 hpre.2.2.2.1 hpre.2.2.2.2 hc,
        error_line]
      refine ⟨?_, ?_, rfl, rfl⟩ <;> dsimp only <;> decide
    · simp [script] at hi

/-- C4: when `mysql.createConnection` rejects, the process exits with status 1, the table
is unchanged, `createConnection` is the only driver call issued (no `execute`, no `query`,
no `end`), exactly one line is written to standard error and no table is displayed. -/
theorem C4_unreachable_database (db : Faults) (users : List User) (msg : String)
    (h : db .createConnection = some msg) :
    (run db users).exitCode = some 1 ∧
    (run db users).users = users ∧
    (run db users).issued = [Call.createConnection] ∧
    (∀ sql, Call.execute sql ∉ (run db users).issued ∧ Call.query sql ∉ (run db users).issued) ∧
    (run db users).affected = [] ∧
    (run db users).tables = [] ∧
    (run db users).stderr = ["❌ Error: " ++ msg] := by
  rw [run_connect_fails db users msg h, error_line]
  simp

theorem C4_unreachable_database_witness :
    failingAt .createConnection "connect ECONNREFUSED 127.0.0.1:3307" .createConnection
      = some "connect ECONNREFUSED 127.0.0.1:3307" ∧
    (run (failingAt .createConnection "connect ECONNREFUSED 127.0.0.1:3307") scenario).exitCode
      = some 1 ∧
    (run (failingAt .createConnection "connect ECONNREFUSED 127.0.0.1:3307") scenario).users
      = scenario ∧
    (run (failingAt .createConnection "connect ECONNREFUSED 127.0.0.1:3307") scenario).issued
      = [Call.createConnection] ∧
    (∀ sql,
      Call.execute sql ∉
        (run (failingAt .createConnection "connect ECONNREFUSED 127.0.0.1:3307") scenario).issued ∧
      Call.query sql ∉
        (run (failingAt .createConnection "connect ECONNREFUSED 127.0.0.1:3307") scenario).issued) ∧
    (run (failingAt .createConnection "connect ECONNREFUSED 127.0.0.1:3307") scenario).affected
      = [] ∧
    (run (failingAt .createConnection "connect ECONNREFUSED 127.0.0.1:3307") scenario).tables
      = [] ∧
    (run (failingAt .createConnection "connect ECONNREFUSED 127.0.0.1:3307") scenario).stderr
      = ["❌ Error: " ++ "connect ECONNREFUSED 127.0.0.1:3307"] :=
  ⟨by decide, C4_unreachable_database
    (failingAt .createConnection "connect ECONNREFUSED 127.0.0.1:3307") scenario
    "connect ECONNREFUSED 127.0.0.1:3307" (by decide)⟩

theorem afterSami_props (users : List User) :
    (∀ u ∈ afterSami users, u.email ≠ adminOld ∧ u.email ≠ samiOld) ∧
    (∀ u ∈ users, u.email = ramiOld → u ∈ afterSami users) := by
  obtain ⟨o1, o2, o3, a1, a2, a3, s1, s2, s3, r1, r2, r3⟩ := old_ne_facts
  simp only [afterSami, afterAdmin, updateAdmin, updateSami, Stmt.apply, List.map_map]
  constructor
  · intro u hu
    obtain ⟨v, -, rfl⟩ := List.mem_map.1 hu
    simp only [Function.comp, setEmail]
    by_cases h1 : v.email = adminOld
    · simp [h1, a1, a2]
    · by_cases h2 : v.email = samiOld
      · simp [h2, s1, s2, o1.symm]
      · simp [h1, h2]
  · intro u hu he
    refine List.mem_map.2 ⟨u, hu, ?_⟩
    simp [Function.comp, setEmail, he, o2.symm, o3.symm]

/-- C7: when the connection is opened, the first `k - 1` updates resolve and update number
`k` (1, 2 or 3) rejects, the process exits with status 1 and the table is the initial
table with exactly the first `k - 1` rules applied, in order: `k - 1` updates have
reported their affected rows and nothing is undone.  For `k = 3` the table is the
initial table after the admin and sami updates: no row has the old admin or sami
address, and every row that had the old rami address is still there as it was. -/
theorem C7_no_rollback (db : Faults) (users : List User) (k : Nat)
    (hk1 : 1 ≤ k) (hk3 : k ≤ 3)
    (hconn : db .createConnection = none)
    (hpre : ∀ s ∈ updates.take (k - 1), db (.execute s) = none)
    (hfail : ∃ s msg, updates[k - 1]? = some s ∧ db (.execute s) = some msg) :
    (run db users).users = applyRules (rules.take (k - 1)) users ∧
    (run db users).exitCode = some 1 ∧
    (run db users).affected.length = k - 1 ∧
    (k = 3 →
      (run db users).users = updateSami.apply (updateAdmin.apply users) ∧
      (∀ u ∈ (run db users).users, u.email ≠ adminOld ∧ u.email ≠ samiOld) ∧
      (∀ u ∈ users, u.email = ramiOld → u ∈ (run db users).users)) := by
  obtain ⟨s, msg, hs, hdb⟩ := hfail
  obtain rfl | rfl | rfl : k = 1 ∨ k = 2 ∨ k = 3 := by omega
  · simp [updates] at hs
    subst hs
    rw [run_admin_fails db users msg hconn hdb]
    simp [applyRules]
  · simp [updates] at hs hpre
    subst hs
    rw [run_sami_fails db users msg hconn hpre hdb]
    simp [applyRules, applyRule, rules, afterAdmin, updateAdmin]
  · simp [updates] at hs hpre
    subst hs
    rw [run_rami_fails db users msg hconn hpre.1 hpre.2 hdb]
    obtain ⟨p1, p2⟩ := afterSami_props users
    refine ⟨?_, rfl, rfl, fun _ => ⟨rfl, p1, p2⟩⟩
    simp [applyRules, applyRule, rules, afterSami, afterAdmin, updateAdmin, updateSami]

theorem C7_no_rollback_witness :
    1 ≤ 3 ∧ 3 ≤ 3 ∧
    failingAt (.execute updateRami) "ER_DUP_ENTRY" .createConnection = none ∧
    (∀ s ∈ updates.take (3 - 1),
      failingAt (.execute updateRami) "ER_DUP_ENTRY" (.execute s) = none) ∧
    (∃ s msg, updates[3 - 1]? = some s ∧
      failingAt (.execute updateRami) "ER_DUP_ENTRY" (.execute s) = some msg) ∧
    (run (failingAt (.execute updateRami) "ER_DUP_ENTRY") scenario).users
      = applyRules (rules.take (3 - 1)) scenario ∧
    (run (failingAt (.execute updateRami) "ER_DUP_ENTRY") scenario).exitCode = some 1 ∧
    (run (failingAt (.execute updateRami) "ER_DUP_ENTRY") scenario).affected.length = 3 - 1 ∧
    (3 = 3 →
      (run (failingAt (.execute updateRami) "ER_DUP_ENTRY") scenario).users
        = updateSami.apply (updateAdmin.apply scenario) ∧
      (∀ u ∈ (run (failingAt (.execute updateRami) "ER_DUP_ENTRY") scenario).users,
        u.email ≠ adminOld ∧ u.email ≠ samiOld) ∧
      (∀ u ∈ scenario, u.email = ramiOld →
        u ∈ (run (failingAt (.execute updateRami) "ER_DUP_ENTRY") scenario).users)) :=
  ⟨by decide, by decide, by decide, by decide, ⟨updateRami, "ER_DUP_ENTRY", by decide, by decide⟩,
    C7_no_rollback (failingAt (.execute updateRami) "ER_DUP_ENTRY") scenario 3
      (by decide) (by decide) (by decide) (by decide)
      ⟨updateRami, "ER_DUP_ENTRY", by decide, by decide⟩⟩

/-- C8: the promise returned by `connection.end()` of `mysql2/promise` has no reject path,
so the runs of the script are those with `db .connEnd = none`.  Every such run ends with
exit status 0 or 1.  With status 0 the driver calls issued are exactly the six calls of the
script, in order.  With status 1 the calls issued are a strict initial segment of the
script that ends at the first call that rejects, every call before it having resolved.
In every such run no call is issued twice, the calls issued are an initial segment of the
script (none skipped, none reordered), and every call followed by another one resolved. -/
theorem C8_linear_call_sequence (db : Faults) (users : List User)
    (hend : db .connEnd = none) :
    ((run db users).exitCode = some 0 ∨ (run db users).exitCode = some 1) ∧
    ((run db users).exitCode = some 0 → (run db users).issued = script) ∧
    ((run db users).exitCode = some 1 →
      (∃ rest, rest ≠ [] ∧ (run db users).issued ++ rest = script) ∧
      ∃ pre c post msg, script = pre ++ c :: post ∧ (run db users).issued = pre ++ [c] ∧
        (∀ x ∈ pre, db x = none) ∧ db c = some msg) ∧
    (run db users).issued.Nodup ∧
    (run db users).issued <+: script ∧
    (∀ c ∈ (run db users).issued.dropLast, db c = none) := by
  rcases run_paths db with ⟨m, h0⟩ | ⟨h0, m, h1⟩ | ⟨h0, h1, m, h2⟩ | ⟨h0, h1, h2, m, h3⟩ |
    ⟨h0, h1, h2, h3, m, h4⟩ | ⟨h0, h1, h2, h3, h4, m, h5⟩ | ⟨h0, h1, h2, h3, h4, h5⟩
  · rw [run_connect_fails db users m h0]
    refine ⟨Or.inr rfl, by simp,
      fun _ => ⟨⟨script.drop 1, by decide, rfl⟩, [], _, _, m, rfl, rfl, by simp, h0⟩,
      (by dsimp only; decide), (by dsimp only; decide), by simp⟩
  · rw [run_admin_fails db users m h0 h1]
    refine ⟨Or.inr rfl, by simp,
      fun _ => ⟨⟨script.drop 2, by decide, rfl⟩, [.createConnection], _, _, m, rfl, rfl,
        by simp [h0], h1⟩,
      (by dsimp only; decide), (by dsimp only; decide), by simp [h0]⟩
  · rw [run_sami_fails db users m h0 h1 h2]
    refine ⟨Or.inr rfl, by simp,
      fun _ => ⟨⟨script.drop 3, by decide, rfl⟩, [.createConnection, .execute updateAdmin],
        _, _, m, rfl, rfl, by simp [h0, h1], h2⟩,
      (by dsimp only; decide), (by dsimp only; decide), by simp [h0, h1]⟩
  · rw [run_rami_fails db users m h0 h1 h2 h3]
    refine ⟨Or.inr rfl, by simp,
      fun _ => ⟨⟨script.drop 4, by decide, rfl⟩,
        [.createConnection, .execute updateAdmin, .execute updateSami], _, _, m, rfl, rfl,
        by simp [h0, h1, h2], h3⟩,
      (by dsimp only; decide), (by dsimp only; decide), by simp [h0, h1, h2]⟩
  · rw [run_select_fails db users m h0 h1 h2 h3 h4]
    refine ⟨Or.inr rfl, by simp,
      fun _ => ⟨⟨script.drop 5, by decide, rfl⟩,
        [.createConnection, .execute updateAdmin, .execute updateSami, .execute updateRami],
        _, _, m, rfl, rfl, by simp [h0, h1, h2, h3], h4⟩,
      (by dsimp only; decide), (by dsimp only; decide), by simp [h0, h1, h2, h3]⟩
  · rw [hend] at h5
    cases h5
  · rw [run_succeeds db users h0 h1 h2 h3 h4 h5]
    refine ⟨Or.inl rfl, by simp, by simp, (by dsimp only; decide), (by dsimp only; decide),
      by simp [script, h0, h1, h2, h3, h4]⟩

/-- C9: `connection.end()` is issued exactly when `createConnection`, the three updates
and the SELECT have all resolved; when the connection is opened and one of the three
updates or the SELECT rejects, the process exits with status 1 and `connection.end()` is
never issued. -/
theorem C9_end_only_after_success (db : Faults) (users : List User) :
    (Call.connEnd ∈ (run db users).issued ↔
      (db .createConnection = none ∧ db (.execute updateAdmin) = none ∧
        db (.execute updateSami) = none ∧ db (.execute updateRami) = none ∧
        db (.query .selectUsers) = none)) ∧
    (db .createConnection = none →
      (∃ c ∈ [Call.execute updateAdmin, .execute updateSami, .execute updateRami,
          .query .selectUsers], db c ≠ none) →
      (run db users).exitCode = some 1 ∧ Call.connEnd ∉ (run db users).issued) := by
  rcases run_paths db with ⟨m, h0⟩ | ⟨h0, m, h1⟩ | ⟨h0, h1, m, h2⟩ | ⟨h0, h1, h2, m, h3⟩ |
    ⟨h0, h1, h2, h3, m, h4⟩ | ⟨h0, h1, h2, h3, h4, m, h5⟩ | ⟨h0, h1, h2, h3, h4, h5⟩
  · simp [run_connect_fails db users m h0, h0]
  · simp [run_admin_fails db users m h0 h1, h0, h1]
  · simp [run_sami_fails db users m h0 h1 h2, h0, h1, h2]
  · simp [run_rami_fails db users m h0 h1 h2 h3, h0, h1, h2, h3]
  · simp [run_select_fails db users m h0 h1 h2 h3 h4, h0, h1, h2, h3, h4]
  · simp [run_end_fails db users m h0 h1 h2 h3 h4 h5, script, h0, h1, h2, h3, h4]
  · simp [run_succeeds db users h0 h1 h2 h3 h4 h5, script, h0, h1, h2, h3, h4]

theorem C3_exit_status_and_diagnostic_witness :
    (run (failingAt (.execute updateSami) "ER_LOCK_DEADLOCK") scenario).exitCode = some 1 ∧
    ((run (failingAt (.execute updateSami) "ER_LOCK_DEADLOCK") scenario).issued
        = script.take (2 + 1) ∧
      (∀ x ∈ script.drop (2 + 1),
        x ∉ (run (failingAt (.execute updateSami) "ER_LOCK_DEADLOCK") scenario).issued) ∧
      (run (failingAt (.execute updateSami) "ER_LOCK_DEADLOCK") scenario).stderr
        = ["❌ Error: " ++ "ER_LOCK_DEADLOCK"] ∧
      (run (failingAt (.execute updateSami) "ER_LOCK_DEADLOCK") scenario).exitCode = some 1) ∧
    ((run healthy scenario).exitCode = some 0 ∧ (run healthy scenario).stderr = []) :=
  ⟨(C3_exit_status_and_diagnostic (failingAt (.execute updateSami) "ER_LOCK_DEADLOCK")
      scenario).1.2 ⟨.execute updateSami, by decide, by decide⟩,
    (C3_exit_status_and_diagnostic (failingAt (.execute updateSami) "ER_LOCK_DEADLOCK")
      scenario).2.2 2 (.execute updateSami) "ER_LOCK_DEADLOCK" (by decide) (by decide)
      (by decide),
    (C3_exit_status_and_diagnostic healthy scenario).2.1 (by decide)⟩

theorem C8_linear_call_sequence_witness :
    failingAt (.execute updateRami) "ER_DUP_ENTRY" .connEnd = none ∧
    ((run (failingAt (.execute updateRami) "ER_DUP_ENTRY") scenario).exitCode = some 0 ∨
      (run (failingAt (.execute updateRami) "ER_DUP_ENTRY") scenario).exitCode = some 1) ∧
    ((run (failingAt (.execute updateRami) "ER_DUP_ENTRY") scenario).exitCode = some 0 →
      (run (failingAt (.execute updateRami) "ER_DUP_ENTRY") scenario).issued = script) ∧
    ((run (failingAt (.execute updateRami) "ER_DUP_ENTRY") scenario).exitCode = some 1 →
      (∃ rest, rest ≠ [] ∧
        (run (failingAt (.execute updateRami) "ER_DUP_ENTRY") scenario).issued ++ rest
          = script) ∧
      ∃ pre c post msg, script = pre ++ c :: post ∧
        (run (failingAt (.execute updateRami) "ER_DUP_ENTRY") scenario).issued = pre ++ [c] ∧
        (∀ x ∈ pre, failingAt (.execute updateRami) "ER_DUP_ENTRY" x = none) ∧
        failingAt (.execute updateRami) "ER_DUP_ENTRY" c = some msg) ∧
    (run (failingAt (.execute updateRami) "ER_DUP_ENTRY") scenario).issued.Nodup ∧
    (run (failingAt (.execute updateRami) "ER_DUP_ENTRY") scenario).issued <+: script ∧
    (∀ c ∈ (run (failingAt (.execute updateRami) "ER_DUP_ENTRY") scenario).issued.dropLast,
      failingAt (.execute updateRami) "ER_DUP_ENTRY" c = none) :=
  ⟨by decide,
    C8_linear_call_sequence (failingAt (.execute updateRami) "ER_DUP_ENTRY") scenario
      (by decide)⟩

theorem C9_end_only_after_success_witness :
    failingAt (.query .selectUsers) "ER_NO_SUCH_TABLE" .createConnection = none ∧
    (run (failingAt (.query .selectUsers) "ER_NO_SUCH_TABLE") scenario).exitCode = some 1 ∧
    Call.connEnd ∉ (run (failingAt (.query .selectUsers) "ER_NO_SUCH_TABLE") scenario).issued :=
  ⟨by decide,
    (C9_end_only_after_success (failingAt (.query .selectUsers) "ER_NO_SUCH_TABLE") scenario).2
      (by decide) ⟨.query .selectUsers, by decide, by decide⟩⟩

end UpdateEmails
